import Mathlib

/-!
Shallow embedding of the xquad_fee_system payment/refund workflow.

The document database is modeled as a `Db` record of lists; each route
handler from `src/controller/paymentController.js`,
`src/controller/refundController.js` and the fraud checker from
`src/unnamed/part_000` (`utils/fraudDetection.js`) becomes a pure function
from a database state, the request parameters, and the outcomes of the
external calls (Paystack gateway, Cloudinary upload) to the new database
state plus the HTTP-style response. Mongoose `save()` is modeled as
replacing the first stored record with the same id; writes issued with a
`session` take effect only if the transaction commits, writes without a
session take effect immediately. Monetary amounts are modeled as integers:
every operation the translated handlers perform on an amount is an
addition, a subtraction, or a comparison, so the embedding is faithful on
the integral amounts all the specification scenarios use. The fraud-score
rescaling, which genuinely divides, is modeled over the rationals.
-/

namespace XquadFee

/-- Payment status values from the Payment model: initiated, confirmed, rejected. -/
inductive PStatus where
  | initiated
  | confirmed
  | rejected
deriving DecidableEq, Repr

/-- Refund status values from the Refund model. -/
inductive RStatus where
  | requested
  | approved
  | processed
  | rejected
  | failed
deriving DecidableEq, Repr

/-- Fee-assignment status values. -/
inductive FAStatus where
  | assigned
  | partially_paid
  | fully_paid
  | overdue
deriving DecidableEq, Repr

/-- A Fee document: the billable obligation (`FeeModel`). `amount` is the due
amount referenced by the partial-payment check in `initializePayment`. -/
structure Fee where
  id : Nat
  schoolId : Nat
  amount : ℤ
  allowPartialPayment : Bool
deriving DecidableEq, Repr

/-- A School document, reduced to the `paymentProviders` provider names. -/
structure School where
  id : Nat
  providers : List String
deriving DecidableEq, Repr

/-- A Payment document. `paystackRef` models
`providerMetadata.get("paystackRef")`. -/
structure Payment where
  id : Nat
  studentId : Nat
  schoolId : Nat
  feeId : Nat
  amount : ℤ
  paymentProvider : String
  paystackRef : Option String
  status : PStatus
deriving DecidableEq, Repr

/-- A FeeAssignment document (running balance for one student and fee). -/
structure FeeAssignment where
  feeId : Nat
  studentId : Nat
  amountDue : ℤ
  amountPaid : ℤ
  status : FAStatus
deriving DecidableEq, Repr

/-- One entry of the embedded `auditTrail` array of a Refund document; only the
`action` string matters to the claims (timestamp and metadata are opaque). -/
structure AuditEntry where
  action : String
deriving DecidableEq, Repr

/-- A Refund document. -/
structure Refund where
  id : Nat
  paymentId : Nat
  studentId : Nat
  schoolId : Nat
  amount : ℤ
  fraudScore : ℤ
  status : RStatus
  auditTrail : List AuditEntry
deriving DecidableEq, Repr

/-- The persistent store. `receipts` and `invoices` count the Receipt and
Invoice records (their contents are irrelevant to the claims); `txLog` keeps
the `action` strings of TransactionLog entries; `students` keeps student ids.
The separate AuditLog collection written by `logActionUtil` is an external
collaborator and is not tracked. -/
structure Db where
  students : List Nat
  fees : List Fee
  schools : List School
  payments : List Payment
  assignments : List FeeAssignment
  refunds : List Refund
  receipts : Nat
  invoices : Nat
  txLog : List String
deriving DecidableEq, Repr

/-- An HTTP-style response: status code plus message. -/
structure Resp where
  code : Nat
  msg : String
deriving DecidableEq, Repr

/-- Replace the first element satisfying `pr` by its image under `f`;
models a mongoose `save()` of a fetched document (keyed by id). -/
def updateFirst (pr : α → Bool) (f : α → α) : List α → List α
  | [] => []
  | x :: xs => if pr x then f x :: xs else x :: updateFirst pr f xs

theorem updateFirst_nil (pr : α → Bool) (f : α → α) : updateFirst pr f [] = [] := rfl

theorem updateFirst_cons (pr : α → Bool) (f : α → α) (x : α) (xs : List α) :
    updateFirst pr f (x :: xs) =
      if pr x then f x :: xs else x :: updateFirst pr f xs := rfl

/-- If some element satisfies the predicate, then the image under `f` of an
element satisfying the predicate is present in the updated list. -/
theorem exists_mem_updateFirst {pr : α → Bool} (f : α → α) {l : List α}
    (h : ∃ x ∈ l, pr x = true) :
    ∃ y ∈ l, pr y = true ∧ f y ∈ updateFirst pr f l := by
  induction l with
  | nil => simp at h
  | cons x xs ih =>
    by_cases hx : pr x = true
    · exact ⟨x, List.mem_cons_self x xs, hx, by simp [updateFirst_cons, hx]⟩
    · obtain ⟨z, hz, hpz⟩ := h
      rcases List.mem_cons.1 hz with rfl | hz
      · exact absurd hpz hx
      · obtain ⟨y, hy, hpy, hmem⟩ := ih ⟨z, hz, hpz⟩
        refine ⟨y, List.mem_cons_of_mem x hy, hpy, ?_⟩
        simp only [updateFirst_cons, Bool.not_eq_true] at hx ⊢
        simp [hx, hmem]

/-- Every element of the updated list is either an old element or the image
of an old element satisfying the predicate. -/
theorem mem_updateFirst {pr : α → Bool} {f : α → α} {l : List α} {x : α}
    (hx : x ∈ updateFirst pr f l) : x ∈ l ∨ ∃ y ∈ l, pr y = true ∧ x = f y := by
  induction l with
  | nil => simp [updateFirst] at hx
  | cons z zs ih =>
    simp only [updateFirst_cons] at hx
    by_cases hz : pr z = true
    · rw [if_pos hz] at hx
      rcases List.mem_cons.1 hx with rfl | hx
      · exact Or.inr ⟨z, List.mem_cons_self z zs, hz, rfl⟩
      · exact Or.inl (List.mem_cons_of_mem z hx)
    · rw [if_neg hz] at hx
      rcases List.mem_cons.1 hx with rfl | hx
      · exact Or.inl (List.mem_cons_self x zs)
      · rcases ih hx with h | ⟨y, hy, hpy, hxy⟩
        · exact Or.inl (List.mem_cons_of_mem z h)
        · exact Or.inr ⟨y, List.mem_cons_of_mem z hy, hpy, hxy⟩

/-- An element on which the predicate is false survives the update unchanged. -/
theorem mem_updateFirst_of_pred_false {pr : α → Bool} {f : α → α} {l : List α} {x : α}
    (hx : x ∈ l) (hpx : pr x = false) : x ∈ updateFirst pr f l := by
  induction l with
  | nil => simp at hx
  | cons z zs ih =>
    simp only [updateFirst_cons]
    by_cases hz : pr z = true
    · rw [if_pos hz]
      rcases List.mem_cons.1 hx with rfl | hx
      · rw [hpx] at hz; cases hz
      · exact List.mem_cons_of_mem _ hx
    · rw [if_neg hz]
      rcases List.mem_cons.1 hx with rfl | hx
      · exact List.mem_cons_self x _
      · exact List.mem_cons_of_mem _ (ih hx)

/-- `find?` decomposes the list around the first match, and `updateFirst`
rewrites exactly that element. -/
theorem updateFirst_decomp {pr : α → Bool} {l : List α} {y : α}
    (h : l.find? pr = some y) (f : α → α) :
    ∃ l1 l2, l = l1 ++ y :: l2 ∧ (∀ x ∈ l1, pr x = false) ∧
      updateFirst pr f l = l1 ++ f y :: l2 := by
  induction l with
  | nil => simp [List.find?] at h
  | cons z zs ih =>
    by_cases hz : pr z = true
    · rw [List.find?_cons_of_pos _ hz] at h
      obtain rfl : z = y := by injection h
      exact ⟨[], zs, by simp, by simp, by simp [updateFirst_cons, hz]⟩
    · have hz' : pr z = false := by
        cases hpz : pr z
        · rfl
        · exact absurd hpz hz
      rw [List.find?_cons_of_neg _ (by simp [hz'])] at h
      obtain ⟨l1, l2, hl, hfalse, hupd⟩ := ih h
      refine ⟨z :: l1, l2, by simp [hl], ?_, ?_⟩
      · intro x hx
        rcases List.mem_cons.1 hx with rfl | hx
        · exact hz'
        · exact hfalse x hx
      · simp [updateFirst_cons, hz', hupd]

/-- `find?` over a decomposition whose prefix consists of non-matches. -/
theorem find?_append_of_prefix_false {pr : α → Bool} {l1 : List α} {z : α}
    (h1 : ∀ x ∈ l1, pr x = false) (hz : pr z = true) (l2 : List α) :
    (l1 ++ z :: l2).find? pr = some z := by
  induction l1 with
  | nil => simp [List.find?_cons_of_pos _ hz]
  | cons w ws ih =>
    have hw : pr w = false := h1 w (List.mem_cons_self w ws)
    simp only [List.cons_append]
    rw [List.find?_cons_of_neg _ (by simp [hw])]
    exact ih fun x hx => h1 x (List.mem_cons_of_mem w hx)

/-- Under a duplicate-free key map, `find?` by the key of a member finds
exactly that member. -/
theorem find?_key_of_nodup {k : α → Nat} {l : List α}
    (hnd : (l.map k).Nodup) {y : α} (hy : y ∈ l) :
    l.find? (fun x => decide (k x = k y)) = some y := by
  induction l with
  | nil => simp at hy
  | cons z zs ih =>
    rcases List.mem_cons.1 hy with rfl | hy
    · exact List.find?_cons_of_pos _ (by simp)
    · have hknd : k z ∉ zs.map k := (List.nodup_cons.1 hnd).1
      have hne : k z ≠ k y := by
        intro hEq
        exact hknd (hEq ▸ List.mem_map_of_mem k hy)
      rw [List.find?_cons_of_neg _ (by simp [hne])]
      exact ih (List.nodup_cons.1 hnd).2 hy

/-! ## Refund workflow (`src/controller/refundController.js`) -/

/-- The sum of amounts of the refunds of a payment whose status is approved
or processed: the `existingRefunds ... reduce` computation of `requestRefund`
(lines 30 to 35). -/
def settledRefundSum (db : Db) (paymentId : Nat) : ℤ :=
  ((db.refunds.filter (fun r =>
    decide (r.paymentId = paymentId ∧ (r.status = .approved ∨ r.status = .processed)))).map
      Refund.amount).sum

/-- `calculateFraudScore` placeholder from refundController.js: returns 0. -/
def calculateFraudScore : ℤ := 0

/-- `requestRefund` (refundController.js lines 12 to 98). The commented-out
status check in the source means the payment status is never consulted.
`newId` is the id mongoose assigns to the new Refund document. -/
def requestRefund (db : Db) (studentId paymentId : Nat) (amount : ℤ)
    (newId : Nat) : Db × Resp :=
  match db.payments.find? (fun p => decide (p.id = paymentId)) with
  | none => (db, ⟨404, "Payment not found"⟩)
  | some payment =>
    if payment.studentId ≠ studentId then
      (db, ⟨403, "Unauthorized: Payment does not belong to this student"⟩)
    else
      let refundableAmount := payment.amount - settledRefundSum db paymentId
      if amount ≤ 0 ∨ refundableAmount < amount then
        (db, ⟨400, "Invalid refund amount"⟩)
      else
        let refund : Refund :=
          { id := newId, paymentId := paymentId, studentId := studentId,
            schoolId := payment.schoolId, amount := amount,
            fraudScore := calculateFraudScore, status := .requested,
            auditTrail := [⟨"refund_requested"⟩] }
        ({ db with refunds := db.refunds ++ [refund],
                   txLog := db.txLog ++ ["refund_requested"] },
         ⟨201, "Refund requested successfully"⟩)

/-- Outcome of the Paystack `/refund` call issued by `reviewRefund`:
the request throws, or returns with `status: true`, or returns declined. -/
inductive RefundGw where
  | threw
  | accepted
  | declined
deriving DecidableEq, Repr

/-- `reviewRefund` (refundController.js lines 101 to 272). The decision is
saved (status plus one audit entry) before any gateway interaction; the
status guard of the source is commented out, so the current refund status is
never checked. On gateway decline the source assigns `failed` to the
in-memory document but never calls `save()`, so the store keeps the
previously saved `approved` record; the handler returns the 400 error.
The populated `refund.schoolId` school document is looked up first; a
missing school document would make the source throw (500). -/
def reviewRefund (db : Db) (adminId refundId : Nat) (decision : String)
    (gw : RefundGw) : Db × Resp :=
  match db.refunds.find? (fun r => decide (r.id = refundId)) with
  | none => (db, ⟨404, "Refund not found"⟩)
  | some refund =>
    match db.schools.find? (fun s => decide (s.id = refund.schoolId)) with
    | none => (db, ⟨500, "Server error"⟩)
    | some school =>
      if school.id ≠ adminId then
        (db, ⟨403, "Unauthorized: Refund does not belong to this school"⟩)
      else if decision ≠ "approved" ∧ decision ≠ "rejected" then
        (db, ⟨400, "Invalid status. Must be approved or rejected"⟩)
      else
        let newStatus : RStatus :=
          if decision = "approved" then .approved else .rejected
        let refund1 : Refund :=
          { refund with status := newStatus,
                        auditTrail := refund.auditTrail ++ [⟨"refund_" ++ decision⟩] }
        let db1 : Db :=
          { db with refunds := (updateFirst (fun r => decide (r.id = refund.id))
                      (fun _ => refund1) db.refunds),
                    txLog := db.txLog ++ ["refund_" ++ decision] }
        if decision ≠ "approved" then
          (db1, ⟨200, "Refund rejected successfully"⟩)
        else
          match db1.payments.find? (fun p => decide (p.id = refund.paymentId)) with
          | none => (db1, ⟨404, "Associated payment not found"⟩)
          | some payment =>
            if payment.paymentProvider ≠ "Paystack" then
              (db1, ⟨400, "Unsupported payment provider"⟩)
            else
              match payment.paystackRef with
              | none => (db1, ⟨400, "Paystack reference not found in payment"⟩)
              | some _ =>
                if ¬ school.providers.contains "Paystack" then
                  (db1, ⟨400, "Paystack not configured for this school"⟩)
                else
                  match gw with
                  | .threw => (db1, ⟨500, "Server error"⟩)
                  | .accepted =>
                    let refund2 : Refund :=
                      { refund1 with auditTrail :=
                          refund1.auditTrail ++ [⟨"refund_approved"⟩] }
                    let refunds2 := updateFirst
                      (fun r => decide (r.id = refund.id)) (fun _ => refund2)
                      db1.refunds
                    ({ db1 with refunds := refunds2,
                                txLog := db1.txLog ++ ["refund_approved"] },
                     ⟨200, "Refund approved successfully"⟩)
                  | .declined =>
                    (db1, ⟨400, "Paystack refund initiation failed"⟩)

/-- A Paystack refund webhook event, after JSON parsing: the discriminator
plus the transaction reference carried in `event.data.transaction.reference`. -/
inductive RefundEvent where
  | processed (reference : String)
  | failed (reference : String)
  | other
deriving DecidableEq, Repr

/-- `handleRefundWebhook` (refundController.js lines 275 to 402).
`sigValid` is the result of comparing the HMAC-SHA512 of the raw body with
the `x-paystack-signature` header. The refund lookup filters on status in
approved or requested, so the inner `status !== processed` guard of the
source is always true for the found refund. -/
def handleRefundWebhook (db : Db) (sigValid : Bool) (ev : RefundEvent) :
    Db × Resp :=
  if ¬ sigValid then (db, ⟨401, "Invalid webhook signature"⟩)
  else
    match ev with
    | .processed reference =>
      match db.payments.find? (fun p => decide (p.paystackRef = some reference)) with
      | none => (db, ⟨404, "Payment not found"⟩)
      | some payment =>
        match db.refunds.find? (fun r =>
            decide (r.paymentId = payment.id ∧
              (r.status = .approved ∨ r.status = .requested))) with
        | none => (db, ⟨404, "Refund not found"⟩)
        | some refund =>
          let refund1 : Refund :=
            { refund with status := .processed,
                          auditTrail := refund.auditTrail ++ [⟨"refund_processed"⟩] }
          ({ db with refunds := (updateFirst (fun r => decide (r.id = refund.id))
                       (fun _ => refund1) db.refunds),
                     txLog := db.txLog ++ ["refund_processed"] },
           ⟨200, "Refund webhook processed successfully"⟩)
    | .failed reference =>
      match db.payments.find? (fun p => decide (p.paystackRef = some reference)) with
      | none => (db, ⟨404, "Payment not found"⟩)
      | some payment =>
        match db.refunds.find? (fun r =>
            decide (r.paymentId = payment.id ∧
              (r.status = .approved ∨ r.status = .requested))) with
        | none => (db, ⟨404, "Refund not found"⟩)
        | some refund =>
          let refund1 : Refund :=
            { refund with status := .failed,
                          auditTrail := refund.auditTrail ++ [⟨"refund_failed"⟩] }
          ({ db with refunds := (updateFirst (fun r => decide (r.id = refund.id))
                       (fun _ => refund1) db.refunds),
                     txLog := db.txLog ++ ["refund_failed"] },
           ⟨200, "Refund webhook processed successfully"⟩)
    | .other => (db, ⟨200, "Webhook event ignored"⟩)

/-! ## Payment workflow (`src/controller/paymentController.js`) -/

/-- Modelled from the spec: `updateFeeAssignmentStatus` lives in
`feeAssignController.js`, which is not under src/ (only its import and call
sites are). Per the spec, settlement "increments FeeAssignment.amountPaid by
payment.amount and recomputes status per the invariant" (`fully_paid` iff
amountPaid is at least amountDue, else `partially_paid` when positive, else
per due date, modeled as leaving the status unchanged); the at-most-once
guard is stated to be the idempotency check of the calling handler, so the
increment here is unconditional. -/
def updateFeeAssignmentStatus (db : Db) (paymentId : Nat) : Db :=
  match db.payments.find? (fun p => decide (p.id = paymentId)) with
  | none => db
  | some payment =>
    { db with assignments := (updateFirst
        (fun a => decide (a.feeId = payment.feeId ∧ a.studentId = payment.studentId))
        (fun a =>
          let paid := a.amountPaid + payment.amount
          { a with amountPaid := paid,
                   status := if a.amountDue ≤ paid then .fully_paid
                             else if 0 < paid then .partially_paid
                             else a.status })
        db.assignments) }

/-- Outcome of the Paystack `transaction/verify` call in `verifyPayment`:
the axios request throws, or reports `data.status` truthy with
`data.data.status === "success"`, or anything else. -/
inductive VerifyOut where
  | threw
  | success
  | notSuccess
deriving DecidableEq, Repr

/-- `verifyPayment` (paymentController.js lines 322 to 418). The payment is
found by stored `paystackRef`; there is no check of the current payment
status anywhere in this handler: a success verdict unconditionally saves
`confirmed`, logs, generates an invoice and re-runs settlement, and any
other verdict unconditionally saves `rejected` (that path writes only the
AuditLog, which is not tracked). -/
def verifyPayment (db : Db) (reference : String) (gw : VerifyOut) : Db × Resp :=
  match db.payments.find? (fun p => decide (p.paystackRef = some reference)) with
  | none => (db, ⟨404, "Payment not found"⟩)
  | some payment =>
    match gw with
    | .threw => (db, ⟨500, "Server error"⟩)
    | .success =>
      let db1 : Db :=
        { db with payments := (updateFirst (fun p => decide (p.id = payment.id))
            (fun _ => { payment with status := .confirmed }) db.payments),
                  txLog := db.txLog ++ ["payment_confirmed"],
                  invoices := db.invoices + 1 }
      (updateFeeAssignmentStatus db1 payment.id,
       ⟨200, "Payment verified successfully"⟩)
    | .notSuccess =>
      ({ db with payments := (updateFirst (fun p => decide (p.id = payment.id))
           (fun _ => { payment with status := .rejected }) db.payments) },
       ⟨400, "Payment verification failed"⟩)

/-- A Paystack payment webhook event: discriminator plus
`event.data.reference`. -/
inductive PaymentEvent where
  | chargeSuccess (reference : String)
  | chargeFailed (reference : String)
  | other
deriving DecidableEq, Repr

/-- `handleWebhook` (paymentController.js lines 421 to 526). The
`charge.success` branch is guarded by `payment.status !== "confirmed"`
(idempotent); the `charge.failed` branch has no such guard and saves
`rejected` whatever the current status. Unknown events are acknowledged. -/
def handleWebhook (db : Db) (ev : PaymentEvent) : Db × Resp :=
  match ev with
  | .chargeSuccess reference =>
    match db.payments.find? (fun p => decide (p.paystackRef = some reference)) with
    | none => (db, ⟨404, "Payment not found"⟩)
    | some payment =>
      if payment.status ≠ .confirmed then
        let payments1 := updateFirst (fun p => decide (p.id = payment.id))
          (fun _ => { payment with status := .confirmed }) db.payments
        let db1 : Db :=
          { db with payments := payments1,
                    txLog := db.txLog ++ ["payment_confirmed"],
                    invoices := db.invoices + 1 }
        (updateFeeAssignmentStatus db1 payment.id,
         ⟨200, "Webhook processed successfully"⟩)
      else
        (db, ⟨200, "Webhook processed successfully"⟩)
  | .chargeFailed reference =>
    match db.payments.find? (fun p => decide (p.paystackRef = some reference)) with
    | none => (db, ⟨404, "Payment not found"⟩)
    | some payment =>
      ({ db with payments := (updateFirst (fun p => decide (p.id = payment.id))
           (fun _ => { payment with status := .rejected }) db.payments),
                 txLog := db.txLog ++ ["payment_rejected"] },
       ⟨200, "Webhook processed successfully"⟩)
  | .other => (db, ⟨200, "Webhook event ignored"⟩)

/-- Outcome of the Paystack `transaction/initialize` call: the https request
throws, or resolves with falsy `status`, or resolves with a reference. -/
inductive GatewayInit where
  | threw
  | failed
  | ok (reference : String)
deriving DecidableEq, Repr

/-- Outcome of the Cloudinary receipt upload. -/
inductive UploadOut where
  | failed
  | ok
deriving DecidableEq, Repr

/-- `initializePayment` (paymentController.js lines 24 to 318), modeled
write-for-write. The new Payment and Receipt are saved with the session and
would persist only at `commitTransaction`; the fee-assignment update (line
157) is saved without the session and persists immediately. After the
receipt is saved the handler calls `sendFeeAssignmentEmail`, a name that is
neither imported nor defined in paymentController.js, so that call throws a
ReferenceError: the catch block aborts the transaction (discarding the
pending Payment and Receipt), writes a `payment_initialization_error`
TransactionLog entry, and responds 500. `commitTransaction` (line 276) is
therefore unreachable, and no Payment row ever persists. A missing fee
assignment (line 145) returns 404 without committing, so the pending
Payment is likewise discarded. -/
def initializePayment (db : Db) (studentId feeId : Nat) (amount : ℤ)
    (gw : GatewayInit) (upload : UploadOut) : Db × Resp :=
  match db.fees.find? (fun f => decide (f.id = feeId)) with
  | none => (db, ⟨404, "Fee not found"⟩)
  | some fee =>
    if amount < fee.amount ∧ fee.allowPartialPayment = false then
      (db, ⟨400, "Partial payments not allowed for this fee"⟩)
    else if amount ≤ 0 then
      (db, ⟨400, "Amount must be greater than 0"⟩)
    else
      match db.schools.find? (fun s => decide (s.id = fee.schoolId)) with
      | none => (db, ⟨404, "School not found"⟩)
      | some school =>
        if ¬ school.providers.contains "Paystack" then
          (db, ⟨400, "Paystack not configured for this school"⟩)
        else
          match gw with
          | .threw =>
            ({ db with txLog := db.txLog ++ ["payment_initialization_error"] },
             ⟨500, "Server error"⟩)
          | .failed => (db, ⟨500, "Paystack initialization failed"⟩)
          | .ok _reference =>
            match db.assignments.find? (fun a =>
                decide (a.feeId = feeId ∧ a.studentId = studentId)) with
            | none => (db, ⟨404, "Fee assignment not found"⟩)
            | some _ =>
              let db1 : Db :=
                { db with assignments := (updateFirst
                    (fun a => decide (a.feeId = feeId ∧ a.studentId = studentId))
                    (fun a =>
                      let paid := a.amountPaid + amount
                      { a with amountPaid := paid,
                               status := if a.amountDue ≤ paid then .fully_paid
                                         else .partially_paid })
                    db.assignments) }
              if ¬ db.students.contains studentId then
                (db1, ⟨404, "Student not found"⟩)
              else
                match upload with
                | .failed =>
                  ({ db1 with txLog := db1.txLog ++ ["payment_initialization_error"] },
                   ⟨500, "Server error"⟩)
                | .ok =>
                  ({ db1 with txLog := db1.txLog ++ ["payment_initialization_error"] },
                   ⟨500, "Server error"⟩)

/-! ## Fraud scoring (`src/unnamed/part_000`, `utils/fraudDetection.js`) -/

/-- The result shape `{ fraudScore, anomaly_scale }` of `checkFraud`. -/
structure FraudResult where
  fraudScore : ℚ
  anomaly_scale : String
deriving DecidableEq, Repr

/-- The store as seen by `checkFraud`: student ids, the genuine
FeeAssignment collection (which `checkFraud` never actually reaches, see
below), the FraudLog collection (opaque ids: its documents carry no `feeId`
or `studentId` field), the TransactionLog actions, and the ids of the
FraudCheckQueue entries. -/
structure FraudDb where
  students : List Nat
  assignments : List FeeAssignment
  fraudLogs : List Nat
  txLog : List String
  queue : List Nat
deriving DecidableEq, Repr

/-- The fraud-score rescaling of fraudDetection.js line 64:
`Math.min((reconstruction_error / (threshold * 2.5)) * 100, 100)`. -/
def derivedFraudScore (reconstruction_error threshold : ℚ) : ℚ :=
  min (reconstruction_error / (threshold * (5 / 2)) * 100) 100

/-- `checkFraud` (fraudDetection.js). The try block first looks up the
student (a miss throws "Student not found" into the catch). The fee
assignment lookup `FeeAssignmentModel.findOne({feeId, studentId})` uses a
name bound by `FeeAssignmentModel from ../models/FraudLog.js`, which is the
FraudLog model: FraudLog documents have no `feeId` or `studentId` field, so
the query matches nothing and the code throws "Fee assignment not found"
into the catch on every invocation (the oracle call, the score, and the
success return are unreachable; the success path would itself crash on
`FraudLogModel`, a name never bound in this module). The catch block first
persists a `fraud_check_error` TransactionLog entry, then builds the
FraudCheckQueue payload from `feeAssignment`, `student`, `isNewDevice` and
`timeSinceLastPaymentDays` — all const bindings scoped to the try block and
not visible in the catch — so that expression throws a ReferenceError which
propagates to the caller: no queue entry is created and the fallback
`{ fraudScore: 0, anomaly_scale: "Low" }` is never returned. -/
def checkFraud (db : FraudDb) (payment : Payment) : FraudDb × Except String FraudResult :=
  let _student := db.students.find? (fun s => decide (s = payment.studentId))
  ({ db with txLog := db.txLog ++ ["fraud_check_error"] },
   Except.error "ReferenceError: feeAssignment is not defined")

/-! ## Concrete stores used by the counterexamples and witnesses -/

/-- A store with one initiated Paystack payment of 5000 for student 7 and the
matching fee assignment (due 5000, nothing paid). -/
def dbC1 : Db :=
  { students := [7], fees := [], schools := [],
    payments := [{ id := 1, studentId := 7, schoolId := 10, feeId := 3,
                   amount := 5000, paymentProvider := "Paystack",
                   paystackRef := some "PAY-1", status := .initiated }],
    assignments := [{ feeId := 3, studentId := 7, amountDue := 5000,
                      amountPaid := 0, status := .assigned }],
    refunds := [], receipts := 0, invoices := 0, txLog := [] }

/-- A variant of `dbC1` whose payment has already been confirmed. -/
def dbC1v : Db :=
  { students := [7], fees := [], schools := [],
    payments := [{ id := 1, studentId := 7, schoolId := 10, feeId := 3,
                   amount := 5000, paymentProvider := "Paystack",
                   paystackRef := some "PAY-1", status := .confirmed }],
    assignments := [{ feeId := 3, studentId := 7, amountDue := 5000,
                      amountPaid := 0, status := .assigned }],
    refunds := [], receipts := 0, invoices := 0, txLog := [] }

/-! ## Helper lemmas about the handlers -/

/-- Settlement only rewrites the assignments. -/
theorem updateFeeAssignmentStatus_payments (db : Db) (pid : Nat) :
    (updateFeeAssignmentStatus db pid).payments = db.payments := by
  unfold updateFeeAssignmentStatus
  split <;> rfl

/-- If settlement finds the payment and the matching assignment, the
incremented assignment is stored. -/
theorem settle_mem (d : Db) (pid : Nat) (q : Payment) (a : FeeAssignment)
    (hq : d.payments.find? (fun x => decide (x.id = pid)) = some q)
    (ha : d.assignments.find?
        (fun x => decide (x.feeId = q.feeId ∧ x.studentId = q.studentId)) = some a) :
    ({ a with amountPaid := a.amountPaid + q.amount,
              status := if a.amountDue ≤ a.amountPaid + q.amount then .fully_paid
                        else if 0 < a.amountPaid + q.amount then .partially_paid
                        else a.status } : FeeAssignment)
      ∈ (updateFeeAssignmentStatus d pid).assignments := by
  obtain ⟨l1, l2, hdecomp, hl1, hupd⟩ := updateFirst_decomp ha
    (fun a =>
      let paid := a.amountPaid + q.amount
      { a with amountPaid := paid,
               status := if a.amountDue ≤ paid then FAStatus.fully_paid
                         else if 0 < paid then FAStatus.partially_paid
                         else a.status })
  simp only [updateFeeAssignmentStatus, hq]
  rw [hupd]
  exact List.mem_append.2 (Or.inr (List.mem_cons_self _ _))

/-! ## Claim C1 -/

/-- C1 as stated is false: `verifyPayment` has no idempotency guard, so a
second verify on an already-confirmed payment re-runs settlement. On the
store `dbC1` (one initiated payment of 5000, assignment due 5000 with 0
paid), the first verify with a success verdict settles `amountPaid` to 5000
and confirms the payment, and a second verify on the now-confirmed payment
raises `amountPaid` to 10000: the fee assignment is credited twice for one
payment. -/
theorem claim1_counterexample :
    ((verifyPayment dbC1 "PAY-1" .success).1.payments.map Payment.status)
        = [.confirmed] ∧
    ((verifyPayment dbC1 "PAY-1" .success).1.assignments.map
        FeeAssignment.amountPaid) = [5000] ∧
    ((verifyPayment (verifyPayment dbC1 "PAY-1" .success).1 "PAY-1"
        .success).1.assignments.map FeeAssignment.amountPaid) = [10000] := by
  decide

/-- C1 (amended): settlement of a FeeAssignment runs at most once per
confirming operation, not at most once per payment. The `charge.success`
webhook path is idempotent — on an already-confirmed payment it returns an
acknowledgement with no state change — but `verifyPayment` is not: a verify
whose gateway verdict is success re-runs settlement even when the payment
is already confirmed, storing the assignment with `amountPaid` incremented
by the payment amount once more. -/
theorem claim1_theorem (db : Db) (ref : String) (p : Payment) (a : FeeAssignment)
    (hnd : (db.payments.map Payment.id).Nodup)
    (hfind : db.payments.find? (fun q => decide (q.paystackRef = some ref)) = some p)
    (hp : p.status = .confirmed)
    (ha : db.assignments.find?
        (fun x => decide (x.feeId = p.feeId ∧ x.studentId = p.studentId)) = some a) :
    handleWebhook db (.chargeSuccess ref)
        = (db, ⟨200, "Webhook processed successfully"⟩) ∧
    ({ a with amountPaid := a.amountPaid + p.amount,
              status := if a.amountDue ≤ a.amountPaid + p.amount then .fully_paid
                        else if 0 < a.amountPaid + p.amount then .partially_paid
                        else a.status } : FeeAssignment)
      ∈ (verifyPayment db ref .success).1.assignments := by
  constructor
  · simp [handleWebhook, hfind, hp]
  · have hpmem : p ∈ db.payments := List.mem_of_find?_eq_some hfind
    have hfid : db.payments.find? (fun q => decide (q.id = p.id)) = some p :=
      find?_key_of_nodup hnd hpmem
    obtain ⟨l1, l2, hdecomp, hl1, hupd⟩ := updateFirst_decomp hfid
      (fun _ => { p with status := PStatus.confirmed })
    simp only [verifyPayment, hfind]
    refine settle_mem _ _ ({ p with status := PStatus.confirmed }) a ?_ ha
    show (updateFirst (fun q => decide (q.id = p.id))
        (fun _ => { p with status := PStatus.confirmed }) db.payments).find?
        (fun q => decide (q.id = p.id)) = some _
    rw [hupd]
    exact find?_append_of_prefix_false hl1 (by simp) l2

/-- Witness for C1: at `dbC1v` (payment already confirmed) the hypotheses
hold, the webhook acknowledges without change, and the verify path stores
the assignment credited with a further 5000. -/
theorem claim1_witness :
    handleWebhook dbC1v (.chargeSuccess "PAY-1")
        = (dbC1v, ⟨200, "Webhook processed successfully"⟩) ∧
    ({ feeId := 3, studentId := 7, amountDue := 5000, amountPaid := 5000,
       status := .fully_paid } : FeeAssignment)
      ∈ (verifyPayment dbC1v "PAY-1" .success).1.assignments := by
  have h := claim1_theorem dbC1v "PAY-1"
    { id := 1, studentId := 7, schoolId := 10, feeId := 3, amount := 5000,
      paymentProvider := "Paystack", paystackRef := some "PAY-1",
      status := .confirmed }
    { feeId := 3, studentId := 7, amountDue := 5000, amountPaid := 0,
      status := .assigned }
    (by decide) (by decide) rfl (by decide)
  exact ⟨h.1, by simpa using h.2⟩

/-! ## Claim C5 -/

/-- C5 as stated is false: on `dbC1v`, whose only payment is `confirmed`, a
later `charge.failed` webhook for its reference changes the status to
`rejected` — the confirmed status is not terminal. -/
theorem claim5_counterexample :
    ((handleWebhook dbC1v (.chargeFailed "PAY-1")).1.payments.map Payment.status)
      = [.rejected] := by decide

/-- C5 (amended): a duplicate `charge.success` webhook leaves an
already-confirmed payment untouched, but confirmed and rejected are not
terminal: a later `charge.failed` webhook stores the referenced payment as
`rejected` whatever its current status (in particular when it is
confirmed), and a `charge.success` webhook stores a currently-rejected
payment as `confirmed`. -/
theorem claim5_theorem (db : Db) (ref : String) (p : Payment)
    (hfind : db.payments.find? (fun q => decide (q.paystackRef = some ref)) = some p) :
    (p.status = .confirmed →
      handleWebhook db (.chargeSuccess ref)
        = (db, ⟨200, "Webhook processed successfully"⟩)) ∧
    ({ p with status := PStatus.rejected } : Payment)
      ∈ (handleWebhook db (.chargeFailed ref)).1.payments ∧
    (p.status = .rejected →
      ({ p with status := PStatus.confirmed } : Payment)
        ∈ (handleWebhook db (.chargeSuccess ref)).1.payments) := by
  have hpmem : p ∈ db.payments := List.mem_of_find?_eq_some hfind
  have hex : ∃ x ∈ db.payments, (fun q => decide (q.id = p.id)) x = true :=
    ⟨p, hpmem, by simp⟩
  refine ⟨fun hp => by simp [handleWebhook, hfind, hp], ?_, fun hp => ?_⟩
  · simp only [handleWebhook, hfind]
    obtain ⟨y, hy, hpy, hmem⟩ := exists_mem_updateFirst
      (fun _ => { p with status := PStatus.rejected }) hex
    exact hmem
  · simp only [handleWebhook, hfind, hp]
    rw [if_pos (by simp)]
    rw [updateFeeAssignmentStatus_payments]
    obtain ⟨y, hy, hpy, hmem⟩ := exists_mem_updateFirst
      (fun _ => { p with status := PStatus.confirmed }) hex
    exact hmem

/-- Witness for C5: on `dbC1v` the duplicate success webhook is a no-op and
the failure webhook stores the payment as rejected. -/
theorem claim5_witness :
    handleWebhook dbC1v (.chargeSuccess "PAY-1")
        = (dbC1v, ⟨200, "Webhook processed successfully"⟩) ∧
    ({ id := 1, studentId := 7, schoolId := 10, feeId := 3, amount := 5000,
       paymentProvider := "Paystack", paystackRef := some "PAY-1",
       status := .rejected } : Payment)
      ∈ (handleWebhook dbC1v (.chargeFailed "PAY-1")).1.payments := by
  have h := claim5_theorem dbC1v "PAY-1"
    { id := 1, studentId := 7, schoolId := 10, feeId := 3, amount := 5000,
      paymentProvider := "Paystack", paystackRef := some "PAY-1",
      status := .confirmed } (by decide)
  exact ⟨h.1 rfl, by simpa using h.2.1⟩

/-! ## Claim C3 -/

/-- C3: the claim is right about the intended design and the code breaks it.
Every invocation of `checkFraud` appends a `fraud_check_error`
TransactionLog entry and then propagates a ReferenceError to its caller
(the catch block reads the try-scoped consts, see the `checkFraud` doc):
no FraudCheckQueue entry is ever created, and the fallback
`{ fraudScore: 0, anomaly_scale: "Low" }` is never returned. -/
theorem claim3_theorem (db : FraudDb) (payment : Payment) :
    checkFraud db payment
      = ({ db with txLog := db.txLog ++ ["fraud_check_error"] },
         Except.error "ReferenceError: feeAssignment is not defined") ∧
    (checkFraud db payment).1.queue = db.queue ∧
    ∀ r : FraudResult, (checkFraud db payment).2 ≠ Except.ok r :=
  ⟨rfl, rfl, fun _ h => Except.noConfusion h⟩

/-! ## Claim C6 -/

/-- C6 as stated is false: the derived score is not always within [0, 100].
A (malformed or hostile) oracle response with `reconstruction_error = -100`
and `threshold = 40` yields a derived fraud score of -100. -/
theorem claim6_counterexample :
    derivedFraudScore (-100) 40 = -100 ∧ derivedFraudScore (-100) 40 < 0 := by
  have h : ((-100 : ℚ) / (40 * (5 / 2)) * 100) = -100 := by norm_num
  unfold derivedFraudScore
  rw [h, min_eq_left (by norm_num : (-100 : ℚ) ≤ 100)]
  norm_num

/-- C6 (amended): the derived fraud score equals
`min(reconstruction_error / (threshold × 2.5) × 100, 100)`; at
`reconstruction_error = 50, threshold = 40` it is exactly 50, and it lies
in [0, 100] whenever the oracle response field `reconstruction_error` is nonnegative
and its `threshold` positive (a negative `reconstruction_error` makes it
negative, see the counterexample). -/
theorem claim6_theorem :
    derivedFraudScore 50 40 = 50 ∧
    ∀ re th : ℚ, 0 ≤ re → 0 < th →
      0 ≤ derivedFraudScore re th ∧ derivedFraudScore re th ≤ 100 := by
  constructor
  · have h : ((50 : ℚ) / (40 * (5 / 2)) * 100) = 50 := by norm_num
    unfold derivedFraudScore
    rw [h]
    exact min_eq_left (by norm_num)
  · intro re th hre hth
    unfold derivedFraudScore
    have h1 : (0 : ℚ) ≤ th * (5 / 2) := by positivity
    exact ⟨le_min (mul_nonneg (div_nonneg hre h1) (by norm_num)) (by norm_num),
           min_le_right _ _⟩

/-- Witness for C6 at the specification scenario values. -/
theorem claim6_witness :
    0 ≤ derivedFraudScore 50 40 ∧ derivedFraudScore 50 40 ≤ 100 :=
  claim6_theorem.2 50 40 (by decide) (by decide)

/-! ## Claim C2 -/

/-- A store with one confirmed Paystack payment of 5000 for student 7, the
school configured for Paystack, and no refunds yet. -/
def dbC2 : Db :=
  { students := [7], fees := [], schools := [{ id := 10, providers := ["Paystack"] }],
    payments := [{ id := 1, studentId := 7, schoolId := 10, feeId := 3,
                   amount := 5000, paymentProvider := "Paystack",
                   paystackRef := some "PAY-1", status := .confirmed }],
    assignments := [], refunds := [], receipts := 0, invoices := 0, txLog := [] }

/-- `dbC2` after student 7 requests a 3000 refund on payment 1. -/
def dbC2a : Db := (requestRefund dbC2 7 1 3000 1).1

/-- `dbC2a` after a second 3000 request on the same payment. -/
def dbC2b : Db := (requestRefund dbC2a 7 1 3000 2).1

/-- `dbC2b` after the school approves the first refund (gateway accepts). -/
def dbC2c : Db := (reviewRefund dbC2b 10 1 "approved" .accepted).1

/-- `dbC2c` after the school approves the second refund (gateway accepts). -/
def dbC2d : Db := (reviewRefund dbC2c 10 2 "approved" .accepted).1

/-- C2: the second half of the claim is false. On a 5000 payment with no
prior refunds, two 3000 requests are both accepted (each sees a refundable
amount of 5000, since `requested` refunds do not count), and `reviewRefund`
approves both without re-checking the cap: afterwards the approved refund
amounts sum to 6000, exceeding the payment amount 5000. -/
theorem claim2_counterexample :
    (dbC2b.refunds.map Refund.status) = [.requested, .requested] ∧
    (dbC2d.refunds.map Refund.status) = [.approved, .approved] ∧
    settledRefundSum dbC2d 1 = 6000 ∧
    (dbC2.payments.map Payment.amount) = [5000] ∧
    ¬ (settledRefundSum dbC2d 1 ≤ 5000) := by decide

/-- C2 (amended): for a payment owned by the requesting student,
`requestRefund` rejects with the invalid-amount error exactly when the
requested amount is nonpositive or exceeds the refundable amount
(payment.amount minus the sum of the approved/processed
refunds), and every accepted request is positive and within that
refundable amount at request time. The global bound — approved/processed
refund sums never exceeding the payment amount — does not follow, because
`reviewRefund` approves without re-checking the cap (see the
counterexample). -/
theorem claim2_theorem (db : Db) (sid pid newId : Nat) (amount : ℤ) (p : Payment)
    (hfind : db.payments.find? (fun q => decide (q.id = pid)) = some p)
    (hown : p.studentId = sid) :
    ((requestRefund db sid pid amount newId).2 = ⟨400, "Invalid refund amount"⟩
        ↔ (amount ≤ 0 ∨ p.amount - settledRefundSum db pid < amount)) ∧
    ((requestRefund db sid pid amount newId).2.code = 201 →
        0 < amount ∧ amount ≤ p.amount - settledRefundSum db pid) := by
  simp only [requestRefund, hfind]
  rw [if_neg (by simp [hown])]
  by_cases hc : amount ≤ 0 ∨ p.amount - settledRefundSum db pid < amount
  · rw [if_pos hc]
    exact ⟨⟨fun _ => hc, fun _ => rfl⟩, fun h => by simp at h⟩
  · rw [if_neg hc]
    have hc2 := hc
    push_neg at hc2
    exact ⟨⟨fun h => by simp at h, fun h => absurd h hc⟩, fun _ => hc2⟩

/-- Witness for C2 at `dbC2`: a first 3000 request on the 5000 payment is
within the refundable amount, so it is not rejected. -/
theorem claim2_witness :
    ((requestRefund dbC2 7 1 3000 1).2 = ⟨400, "Invalid refund amount"⟩
        ↔ ((3000 : ℤ) ≤ 0 ∨ (5000 : ℤ) - settledRefundSum dbC2 1 < 3000)) ∧
    ((requestRefund dbC2 7 1 3000 1).2.code = 201 →
        (0 : ℤ) < 3000 ∧ (3000 : ℤ) ≤ 5000 - settledRefundSum dbC2 1) :=
  claim2_theorem dbC2 7 1 1 3000
    { id := 1, studentId := 7, schoolId := 10, feeId := 3, amount := 5000,
      paymentProvider := "Paystack", paystackRef := some "PAY-1",
      status := .confirmed } (by decide) rfl

/-! ## Claim C10 -/

/-- A store whose only payment is a rejected one of 5000 owned by
student 7. -/
def dbC10 : Db :=
  { students := [7], fees := [], schools := [{ id := 10, providers := ["Paystack"] }],
    payments := [{ id := 1, studentId := 7, schoolId := 10, feeId := 3,
                   amount := 5000, paymentProvider := "Paystack",
                   paystackRef := some "PAY-1", status := .rejected }],
    assignments := [], refunds := [], receipts := 0, invoices := 0, txLog := [] }

/-- C10: `requestRefund` never consults the payment status (the confirmed
check in the source is commented out): for any payment owned by the
requesting student — whatever its status — a request with a positive amount
within the refundable amount succeeds with 201 and stores a new Refund in
the `requested` status with one `refund_requested` audit entry. -/
theorem claim10_theorem (db : Db) (sid pid newId : Nat) (amount : ℤ) (p : Payment)
    (hfind : db.payments.find? (fun q => decide (q.id = pid)) = some p)
    (hown : p.studentId = sid)
    (hpos : 0 < amount)
    (hcap : amount ≤ p.amount - settledRefundSum db pid) :
    requestRefund db sid pid amount newId
      = ({ db with
            refunds := db.refunds ++
              [{ id := newId, paymentId := pid, studentId := sid,
                 schoolId := p.schoolId, amount := amount,
                 fraudScore := calculateFraudScore, status := .requested,
                 auditTrail := [⟨"refund_requested"⟩] }],
            txLog := db.txLog ++ ["refund_requested"] },
         ⟨201, "Refund requested successfully"⟩) := by
  simp only [requestRefund, hfind]
  rw [if_neg (by simp [hown]), if_neg (by push_neg; exact ⟨hpos, hcap⟩)]

/-- Witness for C10: on `dbC10`, whose only payment is rejected, a 2000
request succeeds and stores a `requested` refund. -/
theorem claim10_witness :
    requestRefund dbC10 7 1 2000 1
      = ({ dbC10 with
            refunds := dbC10.refunds ++
              [{ id := 1, paymentId := 1, studentId := 7,
                 schoolId := 10, amount := 2000,
                 fraudScore := calculateFraudScore, status := .requested,
                 auditTrail := [⟨"refund_requested"⟩] }],
            txLog := dbC10.txLog ++ ["refund_requested"] },
         ⟨201, "Refund requested successfully"⟩) :=
  claim10_theorem dbC10 7 1 1 2000
    { id := 1, studentId := 7, schoolId := 10, feeId := 3, amount := 5000,
      paymentProvider := "Paystack", paystackRef := some "PAY-1",
      status := .rejected } (by decide) rfl (by decide) (by decide)

/-! ## Claim C8 -/

/-- A store with a requested 1000 refund on a confirmed Paystack payment,
school 10 configured for Paystack. -/
def dbC8 : Db :=
  { students := [7], fees := [], schools := [{ id := 10, providers := ["Paystack"] }],
    payments := [{ id := 2, studentId := 7, schoolId := 10, feeId := 3,
                   amount := 5000, paymentProvider := "Paystack",
                   paystackRef := some "PAY-2", status := .confirmed }],
    assignments := [],
    refunds := [{ id := 1, paymentId := 2, studentId := 7, schoolId := 10,
                  amount := 1000, fraudScore := 0, status := .requested,
                  auditTrail := [⟨"refund_requested"⟩] }],
    receipts := 0, invoices := 0, txLog := [] }

/-- C8 as stated is false: on `dbC8`, approving refund 1 while the gateway
declines reports the 400 error, but the stored refund keeps the `approved`
status written before the gateway call — the in-memory `failed`
assignment is never saved — and its audit trail records only the approval
decision, with no entry for the decline. -/
theorem claim8_counterexample :
    (reviewRefund dbC8 10 1 "approved" .declined).2
        = ⟨400, "Paystack refund initiation failed"⟩ ∧
    ((reviewRefund dbC8 10 1 "approved" .declined).1.refunds.map Refund.status)
        = [.approved] ∧
    ((reviewRefund dbC8 10 1 "approved" .declined).1.refunds.map
        (fun r => r.auditTrail.map AuditEntry.action))
        = [["refund_requested", "refund_approved"]] := by decide

/-- C8 (amended): when `reviewRefund` approves a refund and the gateway
declines, the operation reports the gateway-refund-failed error (400), but
the Refund persists in the `approved` status saved before the gateway call
with only the approval audit entry: the `failed` status is assigned to the
in-memory object and never saved, so no stored refund becomes `failed`
that was not already stored. -/
theorem claim8_theorem (db : Db) (adminId refundId : Nat) (r : Refund)
    (school : School) (payment : Payment) (pref : String)
    (hfind : db.refunds.find? (fun x => decide (x.id = refundId)) = some r)
    (hschool : db.schools.find? (fun s => decide (s.id = r.schoolId)) = some school)
    (hadmin : school.id = adminId)
    (hpay : db.payments.find? (fun q => decide (q.id = r.paymentId)) = some payment)
    (hprov : payment.paymentProvider = "Paystack")
    (href : payment.paystackRef = some pref)
    (hconf : school.providers.contains "Paystack" = true) :
    (reviewRefund db adminId refundId "approved" .declined).2
      = ⟨400, "Paystack refund initiation failed"⟩ ∧
    ({ r with status := RStatus.approved,
              auditTrail := r.auditTrail ++ [⟨"refund_approved"⟩] } : Refund)
      ∈ (reviewRefund db adminId refundId "approved" .declined).1.refunds ∧
    ∀ x ∈ (reviewRefund db adminId refundId "approved" .declined).1.refunds,
      x.status = RStatus.failed → x ∈ db.refunds := by
  have hrmem : r ∈ db.refunds := List.mem_of_find?_eq_some hfind
  have hex : ∃ x ∈ db.refunds, (fun x => decide (x.id = r.id)) x = true :=
    ⟨r, hrmem, by simp⟩
  have hne : ¬ school.id ≠ adminId := by simp [hadmin]
  have hd1 : ¬ (("approved" : String) ≠ "approved" ∧ ("approved" : String) ≠ "rejected") := by
    decide
  have hd2 : ¬ (("approved" : String) ≠ "approved") := by decide
  have hne2 : ¬ payment.paymentProvider ≠ "Paystack" := by simp [hprov]
  have hne3 : ¬ ¬ (school.providers.contains "Paystack" = true) := by
    simp only [not_not]
    exact hconf
  simp only [reviewRefund, hfind, hschool, hpay, href]
  rw [if_neg hne, if_neg hd1, if_neg hd2, if_neg hne2, if_neg hne3]
  refine ⟨rfl, ?_, ?_⟩
  · obtain ⟨y, hy, hpy, hmem⟩ := exists_mem_updateFirst
      (fun _ => ({ r with
                    status := RStatus.approved,
                    auditTrail := r.auditTrail ++ [⟨"refund_approved"⟩] } : Refund)) hex
    exact hmem
  · intro x hx hfail
    rcases mem_updateFirst hx with hold | ⟨y, hy, hpy, hxy⟩
    · exact hold
    · rw [hxy] at hfail
      simp at hfail

/-- Witness for C8 at `dbC8`: the decline is reported, the stored refund is
`approved` with only the approval audit entry, and no stored refund is
`failed`. -/
theorem claim8_witness :
    (reviewRefund dbC8 10 1 "approved" .declined).2
        = ⟨400, "Paystack refund initiation failed"⟩ ∧
    ({ id := 1, paymentId := 2, studentId := 7, schoolId := 10,
       amount := 1000, fraudScore := 0, status := .approved,
       auditTrail := [⟨"refund_requested"⟩, ⟨"refund_approved"⟩] } : Refund)
      ∈ (reviewRefund dbC8 10 1 "approved" .declined).1.refunds ∧
    ∀ x ∈ (reviewRefund dbC8 10 1 "approved" .declined).1.refunds,
      x.status = RStatus.failed → x ∈ dbC8.refunds := by
  have h := claim8_theorem dbC8 10 1
    { id := 1, paymentId := 2, studentId := 7, schoolId := 10, amount := 1000,
      fraudScore := 0, status := .requested, auditTrail := [⟨"refund_requested"⟩] }
    { id := 10, providers := ["Paystack"] }
    { id := 2, studentId := 7, schoolId := 10, feeId := 3, amount := 5000,
      paymentProvider := "Paystack", paystackRef := some "PAY-2",
      status := .confirmed } "PAY-2"
    (by decide) (by decide) rfl (by decide) rfl rfl (by decide)
  exact ⟨h.1, by simpa using h.2.1, h.2.2⟩

/-! ## Claim C9 -/

/-- A store with a rejected 1000 refund on a confirmed Paystack payment. -/
def dbC9 : Db :=
  { students := [7], fees := [], schools := [{ id := 10, providers := ["Paystack"] }],
    payments := [{ id := 2, studentId := 7, schoolId := 10, feeId := 3,
                   amount := 5000, paymentProvider := "Paystack",
                   paystackRef := some "PAY-2", status := .confirmed }],
    assignments := [],
    refunds := [{ id := 1, paymentId := 2, studentId := 7, schoolId := 10,
                  amount := 1000, fraudScore := 0, status := .rejected,
                  auditTrail := [⟨"refund_requested"⟩, ⟨"refund_rejected"⟩] }],
    receipts := 0, invoices := 0, txLog := [] }

/-- C9 as stated is false: `reviewRefund` never checks the current refund
status (the guard in the source is commented out), so a second review of
the rejected refund of `dbC9` with decision `approved` stores it as
`approved`. -/
theorem claim9_counterexample :
    ((reviewRefund dbC9 10 1 "approved" .accepted).1.refunds.map Refund.status)
      = [.approved] := by decide

/-- C9 (amended): a rejected refund is terminal for the refund webhook —
`handleRefundWebhook` only ever rewrites a refund it finds in the
`approved` or `requested` status, so (with distinct stored refund ids)
every rejected refund survives any webhook event unchanged — but not for
review: `reviewRefund` does not check the current status, so approving a
rejected refund stores it as `approved` (with two approval audit entries,
one from the decision save and one from the gateway-acceptance save). -/
theorem claim9_theorem :
    (∀ (db : Db) (sig : Bool) (ev : RefundEvent) (r : Refund),
      (db.refunds.map Refund.id).Nodup → r ∈ db.refunds →
      r.status = .rejected →
      r ∈ (handleRefundWebhook db sig ev).1.refunds) ∧
    (∀ (db : Db) (adminId refundId : Nat) (r : Refund) (school : School)
        (payment : Payment) (pref : String),
      db.refunds.find? (fun x => decide (x.id = refundId)) = some r →
      db.schools.find? (fun s => decide (s.id = r.schoolId)) = some school →
      school.id = adminId →
      db.payments.find? (fun q => decide (q.id = r.paymentId)) = some payment →
      payment.paymentProvider = "Paystack" →
      payment.paystackRef = some pref →
      school.providers.contains "Paystack" = true →
      r.status = .rejected →
      ({ r with
          status := RStatus.approved,
          auditTrail := (r.auditTrail ++ [⟨"refund_approved"⟩]) ++ [⟨"refund_approved"⟩] } : Refund)
        ∈ (reviewRefund db adminId refundId "approved" .accepted).1.refunds) := by
  constructor
  · intro db sig ev r hnd hr hst
    by_cases hsig : sig = true
    case neg =>
      have : ¬ sig := by simpa using hsig
      simpa [handleRefundWebhook, this] using hr
    case pos =>
      cases ev with
      | other => simpa [handleRefundWebhook, hsig] using hr
      | processed ref =>
        cases hfp : db.payments.find? (fun p => decide (p.paystackRef = some ref)) with
        | none => simpa [handleRefundWebhook, hsig, hfp] using hr
        | some payment =>
          cases hfr : db.refunds.find? (fun x =>
              decide (x.paymentId = payment.id ∧
                (x.status = RStatus.approved ∨ x.status = RStatus.requested))) with
          | none =>
            simp only [handleRefundWebhook, hsig, hfp, hfr]
            rw [if_neg (by simp)]
            exact hr
          | some refund =>
            have hprop := List.find?_some hfr
            rw [decide_eq_true_eq] at hprop
            have hneq : decide (r.id = refund.id) = false := by
              rw [decide_eq_false_iff_not]
              intro hEq
              have hrr : r = refund :=
                List.inj_on_of_nodup_map hnd hr
                  (List.mem_of_find?_eq_some hfr) hEq
              rw [← hrr] at hprop
              rw [hst] at hprop
              rcases hprop.2 with h | h <;> cases h
            simp only [handleRefundWebhook, hsig, hfp, hfr]
            rw [if_neg (by simp)]
            exact mem_updateFirst_of_pred_false hr hneq
      | failed ref =>
        cases hfp : db.payments.find? (fun p => decide (p.paystackRef = some ref)) with
        | none => simpa [handleRefundWebhook, hsig, hfp] using hr
        | some payment =>
          cases hfr : db.refunds.find? (fun x =>
              decide (x.paymentId = payment.id ∧
                (x.status = RStatus.approved ∨ x.status = RStatus.requested))) with
          | none =>
            simp only [handleRefundWebhook, hsig, hfp, hfr]
            rw [if_neg (by simp)]
            exact hr
          | some refund =>
            have hprop := List.find?_some hfr
            rw [decide_eq_true_eq] at hprop
            have hneq : decide (r.id = refund.id) = false := by
              rw [decide_eq_false_iff_not]
              intro hEq
              have hrr : r = refund :=
                List.inj_on_of_nodup_map hnd hr
                  (List.mem_of_find?_eq_some hfr) hEq
              rw [← hrr] at hprop
              rw [hst] at hprop
              rcases hprop.2 with h | h <;> cases h
            simp only [handleRefundWebhook, hsig, hfp, hfr]
            rw [if_neg (by simp)]
            exact mem_updateFirst_of_pred_false hr hneq
  · intro db adminId refundId r school payment pref
      hfind hschool hadmin hpay hprov href hconf hst
    have hrmem : r ∈ db.refunds := List.mem_of_find?_eq_some hfind
    have hex : ∃ x ∈ db.refunds, (fun x => decide (x.id = r.id)) x = true :=
      ⟨r, hrmem, by simp⟩
    have hne : ¬ school.id ≠ adminId := by simp [hadmin]
    have hd1 : ¬ (("approved" : String) ≠ "approved" ∧
        ("approved" : String) ≠ "rejected") := by decide
    have hd2 : ¬ (("approved" : String) ≠ "approved") := by decide
    have hne2 : ¬ payment.paymentProvider ≠ "Paystack" := by simp [hprov]
    have hne3 : ¬ ¬ (school.providers.contains "Paystack" = true) := by
      simp only [not_not]
      exact hconf
    simp only [reviewRefund, hfind, hschool, hpay, href]
    rw [if_neg hne, if_neg hd1, if_neg hd2, if_neg hne2, if_neg hne3]
    obtain ⟨y, hy, hpy, hmem⟩ := exists_mem_updateFirst
      (fun _ => ({ r with
                    status := RStatus.approved,
                    auditTrail := r.auditTrail ++ [⟨"refund_approved"⟩] } : Refund)) hex
    have hex2 : ∃ x ∈ updateFirst (fun x => decide (x.id = r.id))
        (fun _ => ({ r with
                      status := RStatus.approved,
                      auditTrail := r.auditTrail ++ [⟨"refund_approved"⟩] } : Refund))
        db.refunds, (fun x => decide (x.id = r.id)) x = true :=
      ⟨_, hmem, by simp⟩
    obtain ⟨y2, hy2, hpy2, hmem2⟩ := exists_mem_updateFirst
      (fun _ => ({ r with
                    status := RStatus.approved,
                    auditTrail := (r.auditTrail ++ [⟨"refund_approved"⟩])
                      ++ [⟨"refund_approved"⟩] } : Refund)) hex2
    exact hmem2

/-- Witness for C9: on `dbC9` (one rejected refund, distinct ids) the
webhook leaves the rejected refund in place, and a review with decision
`approved` stores it as approved. -/
theorem claim9_witness :
    ({ id := 1, paymentId := 2, studentId := 7, schoolId := 10,
       amount := 1000, fraudScore := 0, status := .rejected,
       auditTrail := [⟨"refund_requested"⟩, ⟨"refund_rejected"⟩] } : Refund)
      ∈ (handleRefundWebhook dbC9 true (.processed "PAY-2")).1.refunds ∧
    ({ id := 1, paymentId := 2, studentId := 7, schoolId := 10,
       amount := 1000, fraudScore := 0, status := .approved,
       auditTrail := [⟨"refund_requested"⟩, ⟨"refund_rejected"⟩,
                      ⟨"refund_approved"⟩, ⟨"refund_approved"⟩] } : Refund)
      ∈ (reviewRefund dbC9 10 1 "approved" .accepted).1.refunds := by
  constructor
  · exact claim9_theorem.1 dbC9 true (.processed "PAY-2")
      { id := 1, paymentId := 2, studentId := 7, schoolId := 10,
        amount := 1000, fraudScore := 0, status := .rejected,
        auditTrail := [⟨"refund_requested"⟩, ⟨"refund_rejected"⟩] }
      (by decide) (by decide) rfl
  · have h := claim9_theorem.2 dbC9 10 1
      { id := 1, paymentId := 2, studentId := 7, schoolId := 10,
        amount := 1000, fraudScore := 0, status := .rejected,
        auditTrail := [⟨"refund_requested"⟩, ⟨"refund_rejected"⟩] }
      { id := 10, providers := ["Paystack"] }
      { id := 2, studentId := 7, schoolId := 10, feeId := 3, amount := 5000,
        paymentProvider := "Paystack", paystackRef := some "PAY-2",
        status := .confirmed } "PAY-2"
      (by decide) (by decide) rfl (by decide) rfl rfl (by decide) rfl
    simpa using h

/-! ## Claim C7 -/

/-- A store with a fee of 5000 that forbids partial payment, the school
configured for Paystack, and a matching fee assignment for student 7. -/
def dbC7 : Db :=
  { students := [7],
    fees := [{ id := 1, schoolId := 10, amount := 5000,
               allowPartialPayment := false }],
    schools := [{ id := 10, providers := ["Paystack"] }],
    payments := [],
    assignments := [{ feeId := 1, studentId := 7, amountDue := 5000,
                      amountPaid := 0, status := .assigned }],
    refunds := [], receipts := 0, invoices := 0, txLog := [] }

/-- C7 as stated is false: the check is `amount < fee.amount`, not
`amount ≠ fee.amount`, so an overpayment (6000 against the 5000
no-partial-payment fee of `dbC7`) is not rejected with
PartialPaymentNotAllowed — it passes that guard and proceeds to the
gateway call (here failing, which yields the gateway error instead). -/
theorem claim7_counterexample :
    (initializePayment dbC7 7 1 6000 .failed .ok).2
        = ⟨500, "Paystack initialization failed"⟩ ∧
    (initializePayment dbC7 7 1 6000 .failed .ok).2
        ≠ ⟨400, "Partial payments not allowed for this fee"⟩ := by decide

/-- C7 (amended): for an existing fee that forbids partial payment,
`initializePayment` responds with PartialPaymentNotAllowed exactly when
the requested amount is strictly less than the fee amount: 3000 against a
5000 fee is rejected, while the exact amount 5000 (or any overpayment)
passes the partial-payment guard and continues with the gateway
initialization. -/
theorem claim7_theorem (db : Db) (sid fid : Nat) (amount : ℤ)
    (gw : GatewayInit) (up : UploadOut) (fee : Fee)
    (hfee : db.fees.find? (fun f => decide (f.id = fid)) = some fee)
    (hpp : fee.allowPartialPayment = false) :
    (initializePayment db sid fid amount gw up).2
        = ⟨400, "Partial payments not allowed for this fee"⟩
      ↔ amount < fee.amount := by
  simp only [initializePayment, hfee]
  by_cases hlt : amount < fee.amount
  · rw [if_pos ⟨hlt, hpp⟩]
    exact ⟨fun _ => hlt, fun _ => rfl⟩
  · rw [if_neg (fun hc => hlt hc.1)]
    refine iff_of_false ?_ hlt
    intro h
    repeat' split at h
    all_goals simp at h

/-- Witness for C7: on `dbC7` a 3000 initialization is rejected with the
partial-payment error. -/
theorem claim7_witness :
    (initializePayment dbC7 7 1 3000 (.ok "R") .ok).2
        = ⟨400, "Partial payments not allowed for this fee"⟩ :=
  (claim7_theorem dbC7 7 1 3000 (.ok "R") .ok
    { id := 1, schoolId := 10, amount := 5000, allowPartialPayment := false }
    (by decide) rfl).mpr (by decide)

/-! ## Claim C4 -/

/-- The same store shape as `dbC7`: fee 5000 without partial payment,
configured school, fee assignment for student 7, no payments yet. -/
def dbC4 : Db :=
  { students := [7],
    fees := [{ id := 1, schoolId := 10, amount := 5000,
               allowPartialPayment := false }],
    schools := [{ id := 10, providers := ["Paystack"] }],
    payments := [],
    assignments := [{ feeId := 1, studentId := 7, amountDue := 5000,
                      amountPaid := 0, status := .assigned }],
    refunds := [], receipts := 0, invoices := 0, txLog := [] }

/-- C4: the second half of the claim is false. On `dbC4` with a successful
gateway call, a failing receipt upload makes the whole initialization fail
with a 500 — a side-effect failure is fatal, not merely logged — and even
with every side effect succeeding the run still fails (the unimported
`sendFeeAssignmentEmail` throws), so no Payment row persists, while the
fee-assignment increment, saved outside the transaction, does persist. -/
theorem claim4_counterexample :
    (initializePayment dbC4 7 1 5000 (.ok "R") .failed).2
        = ⟨500, "Server error"⟩ ∧
    (initializePayment dbC4 7 1 5000 (.ok "R") .failed).1.payments = [] ∧
    ((initializePayment dbC4 7 1 5000 (.ok "R") .failed).1.assignments.map
        FeeAssignment.amountPaid) = [5000] ∧
    (initializePayment dbC4 7 1 5000 (.ok "R") .ok).2
        = ⟨500, "Server error"⟩ ∧
    (initializePayment dbC4 7 1 5000 (.ok "R") .ok).1.payments = [] := by
  decide

/-- C4 (amended): gateway atomicity holds — when the gateway call throws
the store keeps its payments, assignments and receipts, and when the
gateway reports failure the store is entirely unchanged — and in fact no
run of `initializePayment` ever persists a Payment or a Receipt, because
the handler always aborts before `commitTransaction` (the receipt-email
step throws on the unimported `sendFeeAssignmentEmail`). Side-effect
failures are fatal rather than logged: past a successful gateway call the
run responds 500 for every upload outcome, while the fee-assignment
increment, written without the session, persists. -/
theorem claim4_theorem :
    (∀ (db : Db) (sid fid : Nat) (amount : ℤ) (up : UploadOut),
      (initializePayment db sid fid amount .threw up).1.payments = db.payments ∧
      (initializePayment db sid fid amount .threw up).1.assignments = db.assignments ∧
      (initializePayment db sid fid amount .threw up).1.receipts = db.receipts ∧
      (initializePayment db sid fid amount .failed up).1 = db) ∧
    (∀ (db : Db) (sid fid : Nat) (amount : ℤ) (gw : GatewayInit) (up : UploadOut),
      (initializePayment db sid fid amount gw up).1.payments = db.payments ∧
      (initializePayment db sid fid amount gw up).1.receipts = db.receipts) ∧
    (∀ (db : Db) (sid fid : Nat) (amount : ℤ) (ref : String) (up : UploadOut)
        (fee : Fee) (a : FeeAssignment),
      db.fees.find? (fun f => decide (f.id = fid)) = some fee →
      ¬ (amount < fee.amount ∧ fee.allowPartialPayment = false) →
      ¬ amount ≤ 0 →
      (∃ school, db.schools.find? (fun s => decide (s.id = fee.schoolId)) = some school
          ∧ school.providers.contains "Paystack" = true) →
      db.assignments.find? (fun x => decide (x.feeId = fid ∧ x.studentId = sid)) = some a →
      db.students.contains sid = true →
      (initializePayment db sid fid amount (.ok ref) up).2 = ⟨500, "Server error"⟩ ∧
      ({ a with amountPaid := a.amountPaid + amount,
                status := if a.amountDue ≤ a.amountPaid + amount then FAStatus.fully_paid
                          else FAStatus.partially_paid } : FeeAssignment)
        ∈ (initializePayment db sid fid amount (.ok ref) up).1.assignments) := by
  refine ⟨?_, ?_, ?_⟩
  · intro db sid fid amount up
    refine ⟨?_, ?_, ?_, ?_⟩ <;>
      · simp only [initializePayment]
        repeat' split
        all_goals rfl
  · intro db sid fid amount gw up
    refine ⟨?_, ?_⟩ <;>
      · simp only [initializePayment]
        repeat' split
        all_goals rfl
  · intro db sid fid amount ref up fee a hfee hpartial hpos hschool ha hstud
    obtain ⟨school, hsch, hcontains⟩ := hschool
    have hnc : ¬ ¬ (school.providers.contains "Paystack" = true) := by
      simp only [not_not]
      exact hcontains
    have hns : ¬ ¬ (db.students.contains sid = true) := by
      simp only [not_not]
      exact hstud
    obtain ⟨l1, l2, hdecomp, hl1, hupd⟩ := updateFirst_decomp ha
      (fun a =>
        let paid := a.amountPaid + amount
        { a with amountPaid := paid,
                 status := if a.amountDue ≤ paid then FAStatus.fully_paid
                           else FAStatus.partially_paid })
    simp only [initializePayment, hfee, hsch, ha]
    rw [if_neg hpartial, if_neg hpos, if_neg hnc, if_neg hns]
    cases up with
    | failed =>
      refine ⟨rfl, ?_⟩
      show _ ∈ updateFirst
        (fun x => decide (x.feeId = fid ∧ x.studentId = sid))
        (fun a =>
          let paid := a.amountPaid + amount
          { a with amountPaid := paid,
                   status := if a.amountDue ≤ paid then FAStatus.fully_paid
                             else FAStatus.partially_paid })
        db.assignments
      rw [hupd]
      exact List.mem_append.2 (Or.inr (List.mem_cons_self _ _))
    | ok =>
      refine ⟨rfl, ?_⟩
      show _ ∈ updateFirst
        (fun x => decide (x.feeId = fid ∧ x.studentId = sid))
        (fun a =>
          let paid := a.amountPaid + amount
          { a with amountPaid := paid,
                   status := if a.amountDue ≤ paid then FAStatus.fully_paid
                             else FAStatus.partially_paid })
        db.assignments
      rw [hupd]
      exact List.mem_append.2 (Or.inr (List.mem_cons_self _ _))

/-- Witness for C4 at `dbC4`: a gateway failure leaves the store unchanged;
with the gateway succeeding the run still stores no payment, responds 500,
and persists the incremented fee assignment. -/
theorem claim4_witness :
    (initializePayment dbC4 7 1 5000 .failed .ok).1 = dbC4 ∧
    (initializePayment dbC4 7 1 5000 (.ok "R") .ok).1.payments = dbC4.payments ∧
    (initializePayment dbC4 7 1 5000 (.ok "R") .ok).2 = ⟨500, "Server error"⟩ ∧
    ({ feeId := 1, studentId := 7, amountDue := 5000, amountPaid := 5000,
       status := .fully_paid } : FeeAssignment)
      ∈ (initializePayment dbC4 7 1 5000 (.ok "R") .ok).1.assignments := by
  have h1 := (claim4_theorem.1 dbC4 7 1 5000 .ok).2.2.2
  have h2 := (claim4_theorem.2.1 dbC4 7 1 5000 (.ok "R") .ok).1
  have h3 := claim4_theorem.2.2 dbC4 7 1 5000 "R" .ok
    { id := 1, schoolId := 10, amount := 5000, allowPartialPayment := false }
    { feeId := 1, studentId := 7, amountDue := 5000, amountPaid := 0,
      status := .assigned }
    (by decide) (by decide) (by decide)
    ⟨{ id := 10, providers := ["Paystack"] }, by decide, by decide⟩
    (by decide) (by decide)
  exact ⟨h1, h2, h3.1, by simpa using h3.2⟩

end XquadFee
